import Mathlib

/-!
Verification of the provider tool registry in `src/server/mcpServers.ts`.

The module is a static table mapping provider identifiers to MCP server
descriptors, plus two pure lookup functions. We embed it shallowly:

* A server descriptor is modelled as a flat record of optional fields
  mirroring the runtime object shape; the TypeScript source declares it as a
  discriminated union (`McpHttpServerConfig | McpStdioServerConfig`), and the
  variant discipline is proved as a theorem over the table rather than being
  baked into the type.
* Reads of `process.env.X || ''` at table-construction time are modelled by
  passing an environment `ev : String → Option String` explicitly and taking
  `(ev X).getD ""`, which matches the JavaScript semantics: an unset variable
  (and likewise an empty one) yields the empty string.
* Provider identifiers are plain strings; the table is an association list
  preserving the literal insertion order of the source, and
  `MCP_SERVERS_BY_PROVIDER[provider] || \x7b\x7d` becomes `lookup` with an
  empty-list default.
-/

/-- Flat record mirroring one MCP server-config object at runtime.  The
TypeScript type is a tagged union; here every field is optional and the
`type` field carries the tag. -/
structure McpServerConfig where
  type : String
  url : Option String
  headers : Option (List (String × String))
  command : Option String
  args : Option (List String)
  env : Option (List (String × String))
deriving DecidableEq

/-- An environment: maps a variable name to its value when set. -/
def EnvMap : Type := String → Option String

/-- Models a read of process.env.X with empty-string fallback. -/
def envOrEmpty (ev : EnvMap) (x : String) : String :=
  (ev x).getD ""

/-- The static per-provider server table (`MCP_SERVERS_BY_PROVIDER`),
parameterised by the environment read at construction time.  Entries appear
in the literal order of the source file. -/
def MCP_SERVERS_BY_PROVIDER (ev : EnvMap) : List (String × List (String × McpServerConfig)) :=
  [ ("anthropic",
      [ ("grep",
          ⟨"http", some "https://mcp.grep.app", none, none, none, none⟩),
        ("supabase",
          ⟨"stdio", none, none, some "npx",
            some ["-y", "@supabase/mcp-server-supabase@latest"],
            some [("SUPABASE_ACCESS_TOKEN", envOrEmpty ev "SUPABASE_ACCESS_TOKEN")]⟩),
        ("sequential-thinking",
          ⟨"stdio", none, none, some "npx",
            some ["-y", "@modelcontextprotocol/server-sequential-thinking"],
            none⟩) ]),
    ("z-ai",
      [ ("grep",
          ⟨"http", some "https://mcp.grep.app", none, none, none, none⟩),
        ("web-search-prime",
          ⟨"http", some "https://api.z.ai/api/mcp/web_search_prime/mcp",
            some [("Authorization", "Bearer " ++ envOrEmpty ev "ZAI_API_KEY")],
            none, none, none⟩),
        ("zai-mcp-server",
          ⟨"stdio", none, none, some "npx",
            some ["-y", "@z_ai/mcp-server"],
            some [("Z_AI_API_KEY", envOrEmpty ev "ZAI_API_KEY"),
                  ("Z_AI_MODE", "ZAI")]⟩),
        ("web-reader",
          ⟨"http", some "https://api.z.ai/api/mcp/web_reader/mcp",
            some [("Authorization", "Bearer " ++ envOrEmpty ev "ZAI_API_KEY")],
            none, none, none⟩),
        ("supabase",
          ⟨"stdio", none, none, some "npx",
            some ["-y", "@supabase/mcp-server-supabase@latest"],
            some [("SUPABASE_ACCESS_TOKEN", envOrEmpty ev "SUPABASE_ACCESS_TOKEN")]⟩),
        ("sequential-thinking",
          ⟨"stdio", none, none, some "npx",
            some ["-y", "@modelcontextprotocol/server-sequential-thinking"],
            none⟩) ]),
    ("moonshot",
      [ ("grep",
          ⟨"http", some "https://mcp.grep.app", none, none, none, none⟩),
        ("supabase",
          ⟨"stdio", none, none, some "npx",
            some ["-y", "@supabase/mcp-server-supabase@latest"],
            some [("SUPABASE_ACCESS_TOKEN", envOrEmpty ev "SUPABASE_ACCESS_TOKEN")]⟩),
        ("sequential-thinking",
          ⟨"stdio", none, none, some "npx",
            some ["-y", "@modelcontextprotocol/server-sequential-thinking"],
            none⟩) ]) ]

/-- Embeds getMcpServers: look the provider up in the table, falling back to
the empty mapping. -/
def getMcpServers (ev : EnvMap) (provider : String) (_modelId : Option String) :
    List (String × McpServerConfig) :=
  ((MCP_SERVERS_BY_PROVIDER ev).lookup provider).getD []

/-- The grep.app tool list (`grepTools` in the source). -/
def grepTools : List String :=
  ["mcp__grep__searchGitHub"]

/-- The Supabase tool list (`supabaseTools` in the source). -/
def supabaseTools : List String :=
  [ "mcp__supabase__search_docs",
    "mcp__supabase__list_organizations",
    "mcp__supabase__get_organization",
    "mcp__supabase__list_projects",
    "mcp__supabase__get_project",
    "mcp__supabase__list_tables",
    "mcp__supabase__list_extensions",
    "mcp__supabase__list_migrations",
    "mcp__supabase__apply_migration",
    "mcp__supabase__execute_sql",
    "mcp__supabase__get_logs",
    "mcp__supabase__get_advisors",
    "mcp__supabase__get_project_url",
    "mcp__supabase__get_publishable_keys",
    "mcp__supabase__generate_typescript_types",
    "mcp__supabase__list_edge_functions",
    "mcp__supabase__get_edge_function",
    "mcp__supabase__deploy_edge_function" ]

/-- The sequential-thinking tool list (`sequentialThinkingTools` in the source). -/
def sequentialThinkingTools : List String :=
  ["mcp__sequential-thinking__sequentialthinking_tools"]

/-- Embeds getAllowedMcpTools from the source. -/
def getAllowedMcpTools (provider : String) (_modelId : Option String) : List String :=
  if provider = "anthropic" then
    grepTools ++ supabaseTools ++ sequentialThinkingTools
  else if provider = "z-ai" then
    grepTools ++
      [ "mcp__web-search-prime__search",
        "mcp__zai-mcp-server__image_analysis",
        "mcp__zai-mcp-server__video_analysis",
        "mcp__web-reader__webReader" ] ++
      supabaseTools ++ sequentialThinkingTools
  else if provider = "moonshot" then
    grepTools ++ supabaseTools ++ sequentialThinkingTools
  else
    []

/-- The four z-ai-specific tool identifiers added beyond the shared lists,
in the order they appear in the source. -/
def zaiExtraTools : List String :=
  [ "mcp__web-search-prime__search",
    "mcp__zai-mcp-server__image_analysis",
    "mcp__zai-mcp-server__video_analysis",
    "mcp__web-reader__webReader" ]

/-- The base tool set shared by all known providers: code search, database
operations, reasoning. -/
def baseTools : List String :=
  grepTools ++ supabaseTools ++ sequentialThinkingTools

/-- Checks the tagged-union discipline on one descriptor: exactly one variant
tag, and only the fields of that variant are present (headers optional for
http, args and env optional for stdio). -/
def validDescriptor (c : McpServerConfig) : Bool :=
  (c.type == "http" && c.url.isSome &&
    c.command.isNone && c.args.isNone && c.env.isNone) ||
  (c.type == "stdio" && c.command.isSome &&
    c.url.isNone && c.headers.isNone)

/-- Claim C1: for z-ai, getAllowedMcpTools returns exactly 24 identifiers in
the fixed order: the code-search tool, the web-search tool, the two
media-analysis tools, the web-reader tool, the 18 supabase tools, and the
sequential-thinking tool. -/
theorem c1_zai_tool_list (m : Option String) :
    getAllowedMcpTools "z-ai" m =
      [ "mcp__grep__searchGitHub",
        "mcp__web-search-prime__search",
        "mcp__zai-mcp-server__image_analysis",
        "mcp__zai-mcp-server__video_analysis",
        "mcp__web-reader__webReader",
        "mcp__supabase__search_docs",
        "mcp__supabase__list_organizations",
        "mcp__supabase__get_organization",
        "mcp__supabase__list_projects",
        "mcp__supabase__get_project",
        "mcp__supabase__list_tables",
        "mcp__supabase__list_extensions",
        "mcp__supabase__list_migrations",
        "mcp__supabase__apply_migration",
        "mcp__supabase__execute_sql",
        "mcp__supabase__get_logs",
        "mcp__supabase__get_advisors",
        "mcp__supabase__get_project_url",
        "mcp__supabase__get_publishable_keys",
        "mcp__supabase__generate_typescript_types",
        "mcp__supabase__list_edge_functions",
        "mcp__supabase__get_edge_function",
        "mcp__supabase__deploy_edge_function",
        "mcp__sequential-thinking__sequentialthinking_tools" ] ∧
    (getAllowedMcpTools "z-ai" m).length = 24 :=
  ⟨rfl, rfl⟩

/-- Claim C2 counterexample: the z-ai list adds four identifiers beyond the
base set, not five as claimed. -/
theorem c2_five_extras_counterexample :
    ¬ ((getAllowedMcpTools "z-ai" none).filter
        (fun t => !(baseTools.contains t))).length = 5 := by
  decide

/-- Claim C2 (amended): for z-ai, getAllowedMcpTools returns the base tool
set plus four additional identifiers (web search, image analysis, video
analysis, web content reading). -/
theorem c2_zai_base_plus_four (m : Option String) :
    getAllowedMcpTools "z-ai" m =
      grepTools ++ zaiExtraTools ++ supabaseTools ++ sequentialThinkingTools ∧
    zaiExtraTools.length = 4 ∧
    ((getAllowedMcpTools "z-ai" m).filter
      (fun t => !(baseTools.contains t))) = zaiExtraTools ∧
    (baseTools.all (fun t => (getAllowedMcpTools "z-ai" m).contains t)) = true :=
  ⟨rfl, rfl, rfl, rfl⟩

/-- Claim C3: for anthropic, getAllowedMcpTools returns exactly 20
identifiers: the code-search tool, the 18 supabase tools, and the
sequential-thinking tool, concatenated in that order. -/
theorem c3_anthropic_tool_list (m : Option String) :
    getAllowedMcpTools "anthropic" m =
      grepTools ++ supabaseTools ++ sequentialThinkingTools ∧
    grepTools.length = 1 ∧ supabaseTools.length = 18 ∧
    sequentialThinkingTools.length = 1 ∧
    (getAllowedMcpTools "anthropic" m).length = 20 :=
  ⟨rfl, rfl, rfl, rfl, rfl⟩

/-- Claim C4: for every optional model identifier, the moonshot tool list is
element-for-element identical to the anthropic one. -/
theorem c4_moonshot_eq_anthropic (m : Option String) :
    getAllowedMcpTools "moonshot" m = getAllowedMcpTools "anthropic" m :=
  rfl

/-- Claim C5: for any provider outside the known set, getMcpServers returns
the empty mapping and getAllowedMcpTools the empty sequence (both functions
are total, so no error is ever signalled). -/
theorem c5_unknown_provider (ev : EnvMap) (p : String) (m : Option String)
    (h : p ∉ ["anthropic", "z-ai", "moonshot"]) :
    getMcpServers ev p m = [] ∧ getAllowedMcpTools p m = [] := by
  simp only [List.mem_cons, List.not_mem_nil, or_false, not_or] at h
  obtain ⟨h1, h2, h3⟩ := h
  have e1 : (p == "anthropic") = false := beq_eq_false_iff_ne.mpr h1
  have e2 : (p == "z-ai") = false := beq_eq_false_iff_ne.mpr h2
  have e3 : (p == "moonshot") = false := beq_eq_false_iff_ne.mpr h3
  constructor
  · simp [getMcpServers, MCP_SERVERS_BY_PROVIDER, List.lookup, e1, e2, e3]
  · simp [getAllowedMcpTools, h1, h2, h3]

theorem c5_unknown_provider_witness :
    getMcpServers (fun _ => none) "openai" none = [] ∧
    getAllowedMcpTools "openai" none = [] :=
  c5_unknown_provider (fun _ => none) "openai" none (by decide)

/-- Claim C6: for each of the three known providers, the returned mapping
contains a server named grep whose descriptor is the http variant with url
https://mcp.grep.app. -/
theorem c6_grep_server_all_providers (ev : EnvMap) (m : Option String) :
    (getMcpServers ev "anthropic" m).lookup "grep" =
      some ⟨"http", some "https://mcp.grep.app", none, none, none, none⟩ ∧
    (getMcpServers ev "z-ai" m).lookup "grep" =
      some ⟨"http", some "https://mcp.grep.app", none, none, none, none⟩ ∧
    (getMcpServers ev "moonshot" m).lookup "grep" =
      some ⟨"http", some "https://mcp.grep.app", none, none, none, none⟩ :=
  ⟨rfl, rfl, rfl⟩

/-- Claim C7: the model-identifier parameter has no influence: for every
provider and any two model arguments, both functions return equal results. -/
theorem c7_model_id_no_influence (ev : EnvMap) (p : String) (m1 m2 : Option String) :
    getAllowedMcpTools p m1 = getAllowedMcpTools p m2 ∧
    getMcpServers ev p m1 = getMcpServers ev p m2 :=
  ⟨rfl, rfl⟩

/-- Claim C8: when both credential environment variables are unset, the
Authorization header values are the literal Bearer prefix followed by the
empty string, and every injected credential environment value is the empty
string; the fields are present (some), never absent. -/
theorem c8_unset_env_empty_credentials (ev : EnvMap)
    (h1 : ev "SUPABASE_ACCESS_TOKEN" = none) (h2 : ev "ZAI_API_KEY" = none) :
    (getMcpServers ev "z-ai" none).lookup "web-search-prime" =
      some ⟨"http", some "https://api.z.ai/api/mcp/web_search_prime/mcp",
        some [("Authorization", "Bearer ")], none, none, none⟩ ∧
    (getMcpServers ev "z-ai" none).lookup "web-reader" =
      some ⟨"http", some "https://api.z.ai/api/mcp/web_reader/mcp",
        some [("Authorization", "Bearer ")], none, none, none⟩ ∧
    (getMcpServers ev "z-ai" none).lookup "zai-mcp-server" =
      some ⟨"stdio", none, none, some "npx", some ["-y", "@z_ai/mcp-server"],
        some [("Z_AI_API_KEY", ""), ("Z_AI_MODE", "ZAI")]⟩ ∧
    (getMcpServers ev "anthropic" none).lookup "supabase" =
      some ⟨"stdio", none, none, some "npx",
        some ["-y", "@supabase/mcp-server-supabase@latest"],
        some [("SUPABASE_ACCESS_TOKEN", "")]⟩ ∧
    (getMcpServers ev "z-ai" none).lookup "supabase" =
      some ⟨"stdio", none, none, some "npx",
        some ["-y", "@supabase/mcp-server-supabase@latest"],
        some [("SUPABASE_ACCESS_TOKEN", "")]⟩ ∧
    (getMcpServers ev "moonshot" none).lookup "supabase" =
      some ⟨"stdio", none, none, some "npx",
        some ["-y", "@supabase/mcp-server-supabase@latest"],
        some [("SUPABASE_ACCESS_TOKEN", "")]⟩ := by
  simp only [getMcpServers, MCP_SERVERS_BY_PROVIDER, envOrEmpty, h1, h2]
  decide

theorem c8_unset_env_empty_credentials_witness :
    (getMcpServers (fun _ => none) "z-ai" none).lookup "web-search-prime" =
      some ⟨"http", some "https://api.z.ai/api/mcp/web_search_prime/mcp",
        some [("Authorization", "Bearer ")], none, none, none⟩ ∧
    (getMcpServers (fun _ => none) "z-ai" none).lookup "web-reader" =
      some ⟨"http", some "https://api.z.ai/api/mcp/web_reader/mcp",
        some [("Authorization", "Bearer ")], none, none, none⟩ ∧
    (getMcpServers (fun _ => none) "z-ai" none).lookup "zai-mcp-server" =
      some ⟨"stdio", none, none, some "npx", some ["-y", "@z_ai/mcp-server"],
        some [("Z_AI_API_KEY", ""), ("Z_AI_MODE", "ZAI")]⟩ ∧
    (getMcpServers (fun _ => none) "anthropic" none).lookup "supabase" =
      some ⟨"stdio", none, none, some "npx",
        some ["-y", "@supabase/mcp-server-supabase@latest"],
        some [("SUPABASE_ACCESS_TOKEN", "")]⟩ ∧
    (getMcpServers (fun _ => none) "z-ai" none).lookup "supabase" =
      some ⟨"stdio", none, none, some "npx",
        some ["-y", "@supabase/mcp-server-supabase@latest"],
        some [("SUPABASE_ACCESS_TOKEN", "")]⟩ ∧
    (getMcpServers (fun _ => none) "moonshot" none).lookup "supabase" =
      some ⟨"stdio", none, none, some "npx",
        some ["-y", "@supabase/mcp-server-supabase@latest"],
        some [("SUPABASE_ACCESS_TOKEN", "")]⟩ :=
  c8_unset_env_empty_credentials (fun _ => none) rfl rfl

/-- Claim C9: every descriptor in the registry, and in every mapping returned
by getMcpServers, carries exactly one variant tag and only the fields of
that variant: http descriptors have a url and no command, args or env; stdio
descriptors have a command and no url or headers. -/
theorem c9_descriptor_variant_invariant (ev : EnvMap) (p : String) (m : Option String) :
    ((MCP_SERVERS_BY_PROVIDER ev).all
      (fun pr => pr.2.all (fun kv => validDescriptor kv.2))) = true ∧
    ((getMcpServers ev p m).all (fun kv => validDescriptor kv.2)) = true := by
  refine ⟨rfl, ?_⟩
  by_cases e1 : p = "anthropic"
  · subst e1; rfl
  by_cases e2 : p = "z-ai"
  · subst e2; rfl
  by_cases e3 : p = "moonshot"
  · subst e3; rfl
  have b1 : (p == "anthropic") = false := beq_eq_false_iff_ne.mpr e1
  have b2 : (p == "z-ai") = false := beq_eq_false_iff_ne.mpr e2
  have b3 : (p == "moonshot") = false := beq_eq_false_iff_ne.mpr e3
  simp [getMcpServers, MCP_SERVERS_BY_PROVIDER, List.lookup, b1, b2, b3]

/-- Tests whether the string pre is a prefix of the string t. -/
def strStartsWith (pre t : String) : Bool :=
  pre.data.isPrefixOf t.data

/-- Claim C10: for every provider, every allowed tool identifier starts with
mcp__ followed by the name of a server that getMcpServers defines for that
provider, followed by a double underscore and the tool name. -/
theorem c10_allowlist_names_defined_servers (ev : EnvMap) (p : String) (m : Option String) :
    ((getAllowedMcpTools p m).all (fun t =>
      (getMcpServers ev p m).any
        (fun kv => strStartsWith ("mcp__" ++ kv.1 ++ "__") t))) = true := by
  by_cases e1 : p = "anthropic"
  · subst e1; rfl
  by_cases e2 : p = "z-ai"
  · subst e2; rfl
  by_cases e3 : p = "moonshot"
  · subst e3; rfl
  simp [getAllowedMcpTools, e1, e2, e3]
